import Mathlib

/-!
Verification of the BLE-Scanner gateway (TP357_ble_gateway) against its
specification.

The C++ sources are shallowly embedded:
* A raw byte buffer handed to a decoder as `uint8_t *data, int len` is
  modelled as `data : List Nat` together with the length argument `len`.
  The list models the memory that starts at the pointer, so its entries
  beyond position `len - 1` are the bytes that happen to lie after the
  buffer; a read `data[i]` becomes `byteAt data i`, and the decoder reads
  out of bounds exactly when its result depends on entries at positions
  `≥ len`.
* `double` fields that are only moved around and serialized byte-for-byte
  (`SensorData.temperature`/`humidity`) are modelled by their 64-bit
  IEEE-754 bit pattern, a `Nat < 2^64`; `reinterpret_cast<const char*>`
  on a little-endian host then yields the 8 little-endian bytes of that
  pattern.  The decoded temperature/humidity of the TP357 parser, which
  are produced by exact integer-to-double conversion and a division by
  10, are modelled as rationals.
* `int8_t` values (RSSI) are modelled as `Int`; storing one into a byte
  buffer takes its value modulo 256 (two's complement).
* Stateful components (`DataProcessor`, `BluetoothScanner::init`) are
  modelled by explicit state records and step functions; OS calls that
  can fail are driven by an explicit environment of their return values.
-/

namespace BLEGateway

/-! ## Advertising-data TLV decoders (BluetoothScanner.cpp) -/

/-- Constant from `#define AD_TYPE_SHORT_LOCAL_NAME 0x08` (BluetoothScanner.h). -/
def AD_TYPE_SHORT_LOCAL_NAME : Nat := 0x08

/-- Constant from `#define AD_TYPE_COMPLETE_LOCAL_NAME 0x09` (BluetoothScanner.h). -/
def AD_TYPE_COMPLETE_LOCAL_NAME : Nat := 0x09

/-- Constant from `#define AD_TYPE_MANUFACTURER_SPECIFIC_DATA 0xFF` (BluetoothScanner.h). -/
def AD_TYPE_MANUFACTURER_SPECIFIC_DATA : Nat := 0xFF

/-- A `uint8_t` read `data[i]` from the memory modelled by `data`:
positions past the end of the list read as 0, and every read yields a
byte. -/
def byteAt (data : List Nat) (i : Nat) : Nat :=
  data.getD i 0 % 256

/-- Reads of `n` consecutive `uint8_t` values starting at position `start`
(the bytes copied by `device_name_out.assign((char*)field_data,
field_data_len)`). -/
def readBytes (data : List Nat) (start n : Nat) : List Nat :=
  (List.range n).map (fun i => byteAt data (start + i))

/-- Two's-complement reinterpretation of a 16-bit value as `int16_t`
(the cast of `field_data[1] | (field_data[2] << 8)` to `int16_t`). -/
def toInt16 (v : Nat) : Int :=
  if v % 65536 < 32768 then (v % 65536 : Int) else (v % 65536 : Int) - 65536

/-- Loop of `BluetoothScanner::parse_advertising_data_general`
(BluetoothScanner.cpp:415-435): walk TLV records, keeping the payload of
the last local-name record seen.  The loop guard is `offset < len` only;
`field_type` and the `field_len - 1` payload bytes are read without any
further bound check.  `fuel` only bounds the recursion: every iteration
advances `offset` by `field_len + 1 ≥ 1`, so `fuel = len` iterations
always reach `offset ≥ len` and the fuel never truncates the loop. -/
def parseGeneralGo (data : List Nat) (len : Nat) :
    Nat → Nat → List Nat → List Nat
  | 0, _, name => name
  | fuel + 1, offset, name =>
    if offset < len then
      let field_len := byteAt data offset
      if field_len = 0 then name
      else
        let field_type := byteAt data (offset + 1)
        let name' :=
          if field_type = AD_TYPE_COMPLETE_LOCAL_NAME ∨
              field_type = AD_TYPE_SHORT_LOCAL_NAME then
            readBytes data (offset + 2) (field_len - 1)
          else name
        parseGeneralGo data len fuel (offset + field_len + 1) name'
    else name

/-- Function `BluetoothScanner::parse_advertising_data_general(data, len,
device_name_out)`: clears the name, then runs the TLV loop; the result is
the final `device_name_out` as a byte list. -/
def parse_advertising_data_general (data : List Nat) (len : Nat) : List Nat :=
  parseGeneralGo data len len 0 []

/-- Outputs of `TP357Handler::parse_advertising_data_tp357`. -/
structure Tp357Out where
  device_name : List Nat
  temperature : ℚ
  humidity : ℚ
deriving DecidableEq, Repr

/-- Loop of `TP357Handler::parse_advertising_data_tp357`
(BluetoothScanner.cpp:19-91).  Same TLV walk as the general parser; a
manufacturer-specific-data record with `field_data_len >= 4` sets
`temperature_out = (int16_t)(field_data[1] | (field_data[2] << 8)) / 10.0`
and `humidity_out = field_data[3]`; a shorter one changes nothing. -/
def parseTp357Go (data : List Nat) (len : Nat) :
    Nat → Nat → Tp357Out → Tp357Out
  | 0, _, st => st
  | fuel + 1, offset, st =>
    if offset < len then
      let field_len := byteAt data offset
      if field_len = 0 then st
      else
        let field_type := byteAt data (offset + 1)
        let st' :=
          if field_type = AD_TYPE_COMPLETE_LOCAL_NAME ∨
              field_type = AD_TYPE_SHORT_LOCAL_NAME then
            { st with device_name := readBytes data (offset + 2) (field_len - 1) }
          else if field_type = AD_TYPE_MANUFACTURER_SPECIFIC_DATA then
            if 4 ≤ field_len - 1 then
              { st with
                temperature :=
                  (toInt16 (byteAt data (offset + 3) +
                    256 * byteAt data (offset + 4)) : ℚ) / 10,
                humidity := (byteAt data (offset + 5) : ℚ) }
            else st
          else st
        parseTp357Go data len fuel (offset + field_len + 1) st'
    else st

/-- Function `TP357Handler::parse_advertising_data_tp357(data, len, ...)`: name
cleared, temperature and humidity initialized to the invalid sentinel
`-999.0`, then the TLV loop (fuel as in `parseGeneralGo`). -/
def parse_advertising_data_tp357 (data : List Nat) (len : Nat) : Tp357Out :=
  parseTp357Go data len len 0 ⟨[], -999, -999⟩

example :
    parse_advertising_data_general [5, 9, 65, 66, 67, 68, 0] 7
      = [65, 66, 67, 68] := by decide

example :
    (parse_advertising_data_tp357 [5, 255, 1, 234, 0, 55] 6).temperature
      = 117 / 5 := by
  norm_num [parse_advertising_data_tp357, parseTp357Go, byteAt, toInt16,
    AD_TYPE_COMPLETE_LOCAL_NAME, AD_TYPE_SHORT_LOCAL_NAME,
    AD_TYPE_MANUFACTURER_SPECIFIC_DATA]

example :
    (parse_advertising_data_tp357 [5, 255, 1, 234, 0, 55] 6).humidity
      = 55 := by
  norm_num [parse_advertising_data_tp357, parseTp357Go, byteAt, toInt16,
    AD_TYPE_COMPLETE_LOCAL_NAME, AD_TYPE_SHORT_LOCAL_NAME,
    AD_TYPE_MANUFACTURER_SPECIFIC_DATA]

/-! ## SensorData (SensorData.h) -/

/-- Model of `struct SensorData` (SensorData.h).  `temperature` and `humidity`
are `double`s that the serializer copies byte-for-byte; they are
modelled by their 64-bit IEEE-754 bit patterns.  `rssi` is `int8_t`.
The capture timestamp is never serialized or branched on and is
omitted. -/
structure SensorData where
  mac_address : String
  predefined_name : String
  decoded_device_name : String
  temperatureBits : Nat
  humidityBits : Nat
  rssi : Int
deriving DecidableEq, Repr

/-- The default-constructed `SensorData()` used as the shutdown dummy:
empty strings, temperature `0.0`, humidity `0.0` (bit pattern 0),
RSSI 0. -/
def SensorData.dummy : SensorData :=
  ⟨"", "", "", 0, 0, 0⟩

/-! ## Binary serialization (SensorDataSerializer.cpp and the identical
DataProcessor::serializeSensorDataMap, DataProcessor.cpp:183-233)

`std::map<std::string, SensorData>` is modelled as the list of its
entries in iteration order (unique keys, sorted by `std::map`); the
serializer only iterates over it. -/

/-- One hex digit, as accepted by `sscanf`'s `%hhx`. -/
def isHexDigitCh (c : Char) : Bool :=
  c.isDigit || ('a' ≤ c && c ≤ 'f') || ('A' ≤ c && c ≤ 'F')

/-- Value of a hex digit. -/
def hexVal (c : Char) : Nat :=
  if c.isDigit then c.toNat - 48
  else if 'a' ≤ c then c.toNat - 87
  else c.toNat - 55

/-- One `%hhx` conversion: consume a maximal nonempty run of hex digits;
the value is stored into an `unsigned char`, i.e. reduced mod 256.
Fails when no hex digit is present. -/
def scanHexByte (cs : List Char) : Option (Nat × List Char) :=
  let ds := cs.takeWhile isHexDigitCh
  if ds.isEmpty then none
  else some (ds.foldl (fun a c => a * 16 + hexVal c) 0 % 256, cs.drop ds.length)

/-- The `sscanf(mac, "%hhx:%hhx:%hhx:%hhx:%hhx:%hhx", ...)` call of the
serializer: `n` hex-byte fields separated by literal `:`.  Returns the
six parsed bytes when all six conversions succeed (`sscanf` result 6),
`none` otherwise; trailing characters are ignored. -/
def scanMacFields : Nat → List Char → Option (List Nat)
  | 0, _ => some []
  | n + 1, cs =>
    match scanHexByte cs with
    | none => none
    | some (v, rest) =>
      if n = 0 then some [v]
      else
        match rest with
        | ':' :: rest2 => (scanMacFields n rest2).map (fun l => v :: l)
        | _ => none

/-- Parse a colon-hex MAC string into its 6 bytes, or fail. -/
def parseMacBytes (s : String) : Option (List Nat) :=
  scanMacFields 6 s.data

/-- The 6 address bytes the serializer emits: the parsed bytes on
`sscanf` success, 6 zero bytes on parse failure
(SensorDataSerializer.cpp:28-45). -/
def macBytesOrZero (s : String) : List Nat :=
  (parseMacBytes s).getD [0, 0, 0, 0, 0, 0]

/-- The 8 object-representation bytes of a `double` on a little-endian
host: little-endian bytes of its 64-bit IEEE-754 bit pattern. -/
def le8 (bits : Nat) : List Nat :=
  (List.range 8).map (fun i => bits / 256 ^ i % 256)

/-- Byte `static_cast<char>(rssi)` stored in the buffer: the `int8_t`
value as a two's-complement byte. -/
def rssiByte (r : Int) : Nat :=
  (r % 256).toNat

/-- The bytes the per-entry loop body appends for one `SensorData`:
6 MAC bytes (or zeros), 8 little-endian temperature bytes, 8
little-endian humidity bytes, 1 RSSI byte. -/
def entryBytes (d : SensorData) : List Nat :=
  macBytesOrZero d.mac_address ++ le8 d.temperatureBits ++
    le8 d.humidityBits ++ [rssiByte d.rssi]

/-- Function `SensorDataSerializer::serializeSensorDataMap` (equivalently
`DataProcessor::serializeSensorDataMap`): push
`static_cast<uint8_t>(data_map.size())`, then append each entry's bytes
in iteration order. -/
def serializeSensorDataMap (entries : List (String × SensorData)) :
    List Nat :=
  entries.foldl (fun buf p => buf ++ entryBytes p.2) [entries.length % 256]

example :
    serializeSensorDataMap [("AA:BB:CC:DD:EE:FF", ⟨"AA:BB:CC:DD:EE:FF", "", "", 5, 7, -62⟩)]
      = [1, 0xAA, 0xBB, 0xCC, 0xDD, 0xEE, 0xFF,
         5, 0, 0, 0, 0, 0, 0, 0,
         7, 0, 0, 0, 0, 0, 0, 0, 0xC2] := by decide

/-! ## Aggregation window (DataProcessor.cpp)

`latest_samples_in_window_` is a `std::map<std::string, SensorData>`,
modelled as an association list with unique keys.
`latest_samples_in_window_[mac] = data` is `mapUpsert`: it assigns the
existing entry when the key is present and inserts a new entry
otherwise.  (`std::map` keeps its keys sorted; the claims proved below
do not depend on entry order, so a fresh key is inserted at the end.) -/

/-- Assignment through `operator[]` on the window map. -/
def mapUpsert (m : List (String × SensorData)) (k : String) (v : SensorData) :
    List (String × SensorData) :=
  if m.any (fun p => p.1 = k) then
    m.map (fun p => if p.1 = k then (k, v) else p)
  else m ++ [(k, v)]

/-- Unique-keys invariant of the window map. -/
def keysNodup (m : List (String × SensorData)) : Prop :=
  (m.map Prod.fst).Nodup

/-- The body of `DataProcessor::processingLoop` that handles the result
of `queue_.pop(remaining_time)` (DataProcessor.cpp:119-133), given the
current `keep_running_` flag: `none` (timeout) changes nothing; a popped
`SensorData` is the shutdown signal only when `keep_running_` is already
false and all three strings are empty, in which case the loop breaks;
otherwise it is upserted into `latest_samples_in_window_` under its MAC
address.  Returns (loop breaks?, new window). -/
def processPopped (keepRunning : Bool) (window : List (String × SensorData))
    (popped : Option SensorData) : Bool × List (String × SensorData) :=
  match popped with
  | none => (false, window)
  | some d =>
    if !keepRunning && (d.mac_address = "" : Bool) &&
        (d.predefined_name = "" : Bool) && (d.decoded_device_name = "" : Bool) then
      (true, window)
    else
      (false, mapUpsert window d.mac_address d)

/-! ## DataProcessor shutdown (DataProcessor.cpp:65-90) -/

/-- State of a `DataProcessor` as visible to `stopProcessing`:
whether the processing thread is joinable, the `keep_running_` flag, the
queue contents, the window map, whether `sqlite_db_manager_` is non-null,
and the blobs passed to `insertAggregatedSensorData` so far. -/
structure ProcState where
  joinable : Bool
  keepRunning : Bool
  queue : List SensorData
  window : List (String × SensorData)
  hasSink : Bool
  sinkCalls : List (List Nat)
deriving DecidableEq, Repr

/-- The flush block of `stopProcessing` (DataProcessor.cpp:74-86), run
after the join with `latest_samples_mutex_` held: a non-empty window
with a live manager is serialized, handed to
`insertAggregatedSensorData` once, and cleared; an empty window (or a
null manager) produces no call. -/
def shutdownFlush (s : ProcState) : ProcState :=
  if !s.window.isEmpty && s.hasSink then
    { s with
      sinkCalls := s.sinkCalls ++ [serializeSensorDataMap s.window],
      window := [] }
  else s

/-- Method `DataProcessor::stopProcessing` (DataProcessor.cpp:65-90): when the
thread is joinable, clear `keep_running_`, push the dummy `SensorData()`
to unblock a parked `pop`, join, then run the flush block.  The
consumer's execution between the signal and the join is not modelled:
`s.window` is the residual window observed under the mutex after the
join. -/
def stopProcessing (s : ProcState) : ProcState :=
  if s.joinable then
    shutdownFlush
      { s with
        joinable := false,
        keepRunning := false,
        queue := s.queue ++ [SensorData.dummy] }
  else s

/-! ## Handler registry dispatch (BluetoothScanner.cpp:356-373) -/

/-- A registered `IDeviceHandler`, reduced to what the dispatch loop
uses: its `canHandle(device_name)` predicate, plus an identifier so that
the list of `handle` invocations can name which handler ran.  Device
names are byte lists, as produced by the decoders. -/
structure DeviceHandler where
  hid : Nat
  canHandleName : List Nat → Bool

/-- The `for (const auto& handler : device_handlers_)` loop with its
`break` (BluetoothScanner.cpp:360-368): the identifiers of the handlers
whose `handle` is invoked for a report with the given decoded name. -/
def dispatchGo : List DeviceHandler → List Nat → List Nat
  | [], _ => []
  | h :: rest, name =>
    if h.canHandleName name then [h.hid] else dispatchGo rest name

/-- Per-report dispatch (BluetoothScanner.cpp:356-373): run the general
name-extraction pass on the advertising payload, then the handler
loop. -/
def dispatchReport (handlers : List DeviceHandler) (data : List Nat)
    (len : Nat) : List Nat :=
  dispatchGo handlers (parse_advertising_data_general data len)

/-! ## MessageQueue::pop (MessageQueue.cpp:23-39) -/

/-- The body of the blocking `MessageQueue::pop()` after
`cv_.wait(lock, [this]{ return !queue_.empty(); })` returns, with the
lock re-acquired: the `queue_.empty()` recheck returning `nullopt`,
else front and pop.  Returns (result, remaining queue). -/
def popAfterWait (q : List SensorData) :
    Option SensorData × List SensorData :=
  if q.isEmpty then (none, q)
  else (q.head?, q.tail)

/-! ## BluetoothScanner::init (BluetoothScanner.cpp:128-229) -/

/-- Outcomes of the OS/HCI calls `init()` makes, in order: `pipe`,
`fcntl(F_SETFL, O_NONBLOCK)`, `hci_get_route`, `hci_open_dev`,
`hci_le_set_scan_parameters`, `hci_le_set_scan_enable`,
`setsockopt(HCI_FILTER)`.  The two descriptors a successful `pipe`
yields are also part of the environment. -/
structure InitEnv where
  pipeOk : Bool
  pipeReadFd : Nat
  pipeWriteFd : Nat
  fcntlOk : Bool
  getRouteRet : Int
  openDevRet : Int
  scanParamsRet : Int
  scanEnableRet : Int
  setFilterRet : Int

/-- Resources `init()` can acquire. -/
inductive ScanResource where
  | pipeRead
  | pipeWrite
  | controller
deriving DecidableEq, Repr

/-- Scanner state touched by `init()`: the stored descriptors
(`pipefd_[0]`, `pipefd_[1]`, `dd_`) and the set of OS resources
currently held. -/
structure ScannerState where
  pipefd0 : Int
  pipefd1 : Int
  dd : Int
  held : List ScanResource
deriving DecidableEq, Repr

/-- State after the `BluetoothScanner` constructor
(BluetoothScanner.cpp:110-114): descriptors `-1`, nothing held. -/
def ScannerState.ctor : ScannerState :=
  ⟨-1, -1, -1, []⟩

/-- Close both pipe ends and reset `pipefd_` to `-1`, as each failure
path of `init()` does. -/
def closePipePair (s : ScannerState) : ScannerState :=
  { s with
    pipefd0 := -1,
    pipefd1 := -1,
    held := s.held.filter
      (fun r => r ≠ ScanResource.pipeRead ∧ r ≠ ScanResource.pipeWrite) }

/-- Controller cleanup `hci_close_dev(dd_); dd_ = -1;` on a failure path of `init()`. -/
def closeController (s : ScannerState) : ScannerState :=
  { s with
    dd := -1,
    held := s.held.filter (fun r => r ≠ ScanResource.controller) }

/-- Function `BluetoothScanner::init` (BluetoothScanner.cpp:128-229), step by
step; each failing call returns `false` after closing what earlier steps
acquired. -/
def scannerInit (env : InitEnv) (s0 : ScannerState) : Bool × ScannerState :=
  if !env.pipeOk then (false, s0)
  else
    let s1 : ScannerState :=
      { s0 with
        pipefd0 := (env.pipeReadFd : Int),
        pipefd1 := (env.pipeWriteFd : Int),
        held := s0.held ++ [ScanResource.pipeRead, ScanResource.pipeWrite] }
    if !env.fcntlOk then (false, closePipePair s1)
    else if env.getRouteRet < 0 then (false, closePipePair s1)
    else
      let s2 : ScannerState :=
        { s1 with
          dd := env.openDevRet,
          held :=
            if env.openDevRet ≥ 0 then s1.held ++ [ScanResource.controller]
            else s1.held }
      if env.openDevRet < 0 then (false, closePipePair s2)
      else if env.scanParamsRet < 0 then
        (false, closePipePair (closeController s2))
      else if env.scanEnableRet < 0 then
        (false, closePipePair (closeController s2))
      else if env.setFilterRet < 0 then
        (false, closePipePair (closeController s2))
      else (true, s2)

/-- All steps of `init()` succeeding. -/
def initAllOk (env : InitEnv) : Prop :=
  env.pipeOk = true ∧ env.fcntlOk = true ∧ 0 ≤ env.getRouteRet ∧
    0 ≤ env.openDevRet ∧ 0 ≤ env.scanParamsRet ∧ 0 ≤ env.scanEnableRet ∧
    0 ≤ env.setFilterRet

/-! ## Theorems -/

/-- Helper: the handler loop invokes exactly the first handler, in
registration order, whose `canHandle` accepts the name, and nothing when
none does. -/
theorem dispatchGo_eq_find (hs : List DeviceHandler) (name : List Nat) :
    dispatchGo hs name
      = ((hs.find? (fun h => h.canHandleName name)).elim []
          (fun h => [h.hid])) := by
  induction hs with
  | nil => rfl
  | cons h rest ih =>
    by_cases hc : h.canHandleName name <;>
      simp [dispatchGo, List.find?_cons, hc, ih]

/-- C1: the claim that the TLV decoders stop at a record whose declared
length extends past the buffer and never read a byte outside the buffer
is false: both `parse_advertising_data_general` and
`parse_advertising_data_tp357`, called on a 3-byte buffer
`[0x04, 0x09, 0x41]` whose single record declares 3 payload bytes with
only 1 remaining, read the two bytes that lie after the buffer — their
output differs between two memories that agree on the entire 3-byte
buffer and differ only past its end. -/
theorem C1_decoders_read_past_buffer :
    ([4, 9, 65, 66, 67] : List Nat).take 3
        = ([4, 9, 65, 88, 89] : List Nat).take 3
    ∧ parse_advertising_data_general [4, 9, 65, 66, 67] 3
        ≠ parse_advertising_data_general [4, 9, 65, 88, 89] 3
    ∧ (parse_advertising_data_tp357 [4, 9, 65, 66, 67] 3).device_name
        ≠ (parse_advertising_data_tp357 [4, 9, 65, 88, 89] 3).device_name := by
  refine ⟨by decide, by decide, by decide⟩

/-- C6: per advertising report, dispatch extracts the name with the
general TLV pass and then invokes `handle` on exactly the first
registered handler whose `canHandle` accepts that name; at most one
handler runs, and a report matched by no handler produces no invocation
at all. -/
theorem C6_dispatch_first_match (handlers : List DeviceHandler)
    (data : List Nat) (len : Nat) :
    dispatchReport handlers data len
      = ((handlers.find? (fun h => h.canHandleName
            (parse_advertising_data_general data len))).elim []
          (fun h => [h.hid]))
    ∧ (dispatchReport handlers data len).length ≤ 1 := by
  refine ⟨dispatchGo_eq_find handlers _, ?_⟩
  rw [dispatchReport, dispatchGo_eq_find]
  cases handlers.find? (fun h => h.canHandleName
    (parse_advertising_data_general data len)) <;> simp

/-- C7 counterexample: while `keep_running_` is still true, popping the
empty Reading does insert it into the window mapping (under the empty
address), so it is not "never treated as real data". -/
theorem C7_empty_reading_inserted_while_running :
    processPopped true [] (some SensorData.dummy)
      = (false, [("", SensorData.dummy)]) := by decide

/-- C7 (amended): an empty Reading (address, predefined name and decoded
device name all empty) is treated as the shutdown sentinel only when
shutdown has been requested (`keep_running_` false): then the loop exits
without inserting it; while the flag is still true, popping it inserts
it into the window mapping under the empty address key. -/
theorem C7_sentinel_only_when_stopping (w : List (String × SensorData))
    (d : SensorData) (h1 : d.mac_address = "") (h2 : d.predefined_name = "")
    (h3 : d.decoded_device_name = "") :
    processPopped false w (some d) = (true, w)
    ∧ processPopped true w (some d) = (false, mapUpsert w "" d) := by
  constructor <;> simp [processPopped, h1, h2, h3]

/-- C7 witness: the amended claim at the empty Reading and the empty
window. -/
theorem C7_sentinel_only_when_stopping_witness :
    SensorData.dummy.mac_address = "" ∧
    SensorData.dummy.predefined_name = "" ∧
    SensorData.dummy.decoded_device_name = "" ∧
    (processPopped false [] (some SensorData.dummy) = (true, [])
      ∧ processPopped true [] (some SensorData.dummy)
          = (false, mapUpsert [] "" SensorData.dummy)) :=
  ⟨rfl, rfl, rfl, C7_sentinel_only_when_stopping [] SensorData.dummy rfl rfl rfl⟩

/-- C9: the blocking `MessageQueue::pop()` always returns a value: its
condition-variable wait completes only when the queue is non-empty, and
on a non-empty queue the post-wait body returns the front element — the
`nullopt` branch after the wait is unreachable. -/
theorem C9_pop_always_returns (q : List SensorData) (h : q ≠ []) :
    (popAfterWait q).1 = q.head? ∧ (popAfterWait q).1.isSome := by
  cases q with
  | nil => exact absurd rfl h
  | cons a t => simp [popAfterWait]

/-- C9 witness: the blocking pop on a concrete one-element queue. -/
theorem C9_pop_always_returns_witness :
    ([SensorData.dummy] : List SensorData) ≠ [] ∧
    ((popAfterWait [SensorData.dummy]).1 = [SensorData.dummy].head?
      ∧ (popAfterWait [SensorData.dummy]).1.isSome) :=
  ⟨by decide, C9_pop_always_returns [SensorData.dummy] (by decide)⟩

/-- C8: if any step of `BluetoothScanner::init` fails, it returns false
with every earlier acquisition released: the pipe descriptors closed and
reset to `-1`, the controller descriptor closed and negative (invalid),
and no OS resource still held. -/
theorem C8_init_failure_releases (env : InitEnv) (h : ¬ initAllOk env) :
    (scannerInit env ScannerState.ctor).1 = false
    ∧ (scannerInit env ScannerState.ctor).2.pipefd0 = -1
    ∧ (scannerInit env ScannerState.ctor).2.pipefd1 = -1
    ∧ (scannerInit env ScannerState.ctor).2.dd < 0
    ∧ (scannerInit env ScannerState.ctor).2.held = [] := by
  rw [initAllOk] at h
  rw [scannerInit]
  split_ifs with h1 h2 h3 h4 h5 h6 h7 <;>
    simp_all [closePipePair, closeController, ScannerState.ctor]
  all_goals omega

/-- C8 witness: an `init` run where every step succeeds except the final
`setsockopt(HCI_FILTER)`. -/
theorem C8_init_failure_releases_witness :
    ¬ initAllOk ⟨true, 3, 4, true, 0, 5, 0, 0, -1⟩ ∧
    ((scannerInit ⟨true, 3, 4, true, 0, 5, 0, 0, -1⟩ ScannerState.ctor).1 = false
      ∧ (scannerInit ⟨true, 3, 4, true, 0, 5, 0, 0, -1⟩ ScannerState.ctor).2.pipefd0 = -1
      ∧ (scannerInit ⟨true, 3, 4, true, 0, 5, 0, 0, -1⟩ ScannerState.ctor).2.pipefd1 = -1
      ∧ (scannerInit ⟨true, 3, 4, true, 0, 5, 0, 0, -1⟩ ScannerState.ctor).2.dd < 0
      ∧ (scannerInit ⟨true, 3, 4, true, 0, 5, 0, 0, -1⟩ ScannerState.ctor).2.held = []) :=
  ⟨by rw [initAllOk]; decide,
    C8_init_failure_releases ⟨true, 3, 4, true, 0, 5, 0, 0, -1⟩
      (by rw [initAllOk]; decide)⟩

/-- Helper: appending via `foldl` equals the initial buffer followed by
the concatenation of the per-element bytes. -/
theorem foldl_append_eq_flatMap {α β : Type} (f : α → List β) :
    ∀ (l : List α) (buf : List β),
      l.foldl (fun b x => b ++ f x) buf = buf ++ l.flatMap f
  | [], buf => by simp
  | a :: l, buf => by
    simp only [List.foldl_cons, List.flatMap_cons,
      foldl_append_eq_flatMap f l (buf ++ f a), List.append_assoc]

/-- Helper: the serializer's output is the count byte followed by each
entry's 23 bytes in iteration order. -/
theorem serialize_eq_flatMap (entries : List (String × SensorData)) :
    serializeSensorDataMap entries
      = (entries.length % 256) :: entries.flatMap (fun p => entryBytes p.2) := by
  rw [serializeSensorDataMap, foldl_append_eq_flatMap]
  rfl

/-- Helper: six `%hhx` conversions yield six bytes. -/
theorem scanMacFields_length :
    ∀ (n : Nat) (cs : List Char) (l : List Nat),
      scanMacFields n cs = some l → l.length = n
  | 0, _, l => by
    intro h
    simp [scanMacFields] at h
    simp [← h]
  | n + 1, cs, l => by
    intro h
    rw [scanMacFields] at h
    cases hs : scanHexByte cs with
    | none => rw [hs] at h; exact absurd h (by simp)
    | some vr =>
      rw [hs] at h
      by_cases hn : n = 0
      · subst hn
        simp at h
        simp [← h]
      · simp [hn] at h
        cases hrest : vr.2 with
        | nil => rw [hrest] at h; exact absurd h (by simp)
        | cons c rest2 =>
          rw [hrest] at h
          by_cases hc : c = ':'
          · subst hc
            simp at h
            obtain ⟨l2, hl2, hvl⟩ := h
            have := scanMacFields_length n rest2 l2 hl2
            simp [← hvl, this]
          · simp [hc] at h

/-- Helper: every entry contributes exactly 23 bytes: 6 address bytes,
8 temperature bytes, 8 humidity bytes, 1 RSSI byte. -/
theorem entryBytes_length (d : SensorData) : (entryBytes d).length = 23 := by
  rw [entryBytes]
  have h6 : (macBytesOrZero d.mac_address).length = 6 := by
    rw [macBytesOrZero, parseMacBytes]
    cases hs : scanMacFields 6 d.mac_address.data with
    | none => simp
    | some l => simp [scanMacFields_length 6 d.mac_address.data l hs]
  simp [h6, le8]

/-- Helper: the payload after the count byte is `23 * n` bytes long. -/
theorem entriesBytes_length (entries : List (String × SensorData)) :
    (entries.flatMap (fun p => entryBytes p.2)).length = 23 * entries.length := by
  induction entries with
  | nil => simp
  | cons p l ih => simp [ih, entryBytes_length]; ring

/-- C2: for a window map of at most 255 entries, the serialized blob is
the entry count in one byte followed by, per entry in iteration order,
the 6 parsed address bytes (6 zero bytes when the colon-hex string fails
to parse), the 8 little-endian bytes of the temperature double, the 8
little-endian bytes of the humidity double, and the RSSI byte; its total
length is exactly `1 + 23 * n`. -/
theorem C2_serialize_layout (entries : List (String × SensorData))
    (h : entries.length ≤ 255) :
    serializeSensorDataMap entries
      = entries.length ::
          entries.flatMap (fun p =>
            ((parseMacBytes p.2.mac_address).getD [0, 0, 0, 0, 0, 0]) ++
              le8 p.2.temperatureBits ++ le8 p.2.humidityBits ++
              [rssiByte p.2.rssi])
    ∧ (serializeSensorDataMap entries).length = 1 + 23 * entries.length := by
  have hmod : entries.length % 256 = entries.length := Nat.mod_eq_of_lt (by omega)
  constructor
  · rw [serialize_eq_flatMap, hmod]
    rfl
  · rw [serialize_eq_flatMap]
    simp only [List.length_cons, entriesBytes_length]
    omega

/-- C2 witness: the spec's worked example — one device
`AA:BB:CC:DD:EE:FF` with RSSI −62 serializes to a 24-byte blob with
count byte 1, the six address bytes, the two 8-byte doubles and the
trailing byte `0xC2`. -/
theorem C2_serialize_layout_witness :
    ([("AA:BB:CC:DD:EE:FF",
        (⟨"AA:BB:CC:DD:EE:FF", "", "", 5, 7, -62⟩ : SensorData))].length ≤ 255)
    ∧ (serializeSensorDataMap
          [("AA:BB:CC:DD:EE:FF", ⟨"AA:BB:CC:DD:EE:FF", "", "", 5, 7, -62⟩)]
        = [("AA:BB:CC:DD:EE:FF",
            (⟨"AA:BB:CC:DD:EE:FF", "", "", 5, 7, -62⟩ : SensorData))].length ::
            [("AA:BB:CC:DD:EE:FF",
              (⟨"AA:BB:CC:DD:EE:FF", "", "", 5, 7, -62⟩ : SensorData))].flatMap
              (fun p =>
                ((parseMacBytes p.2.mac_address).getD [0, 0, 0, 0, 0, 0]) ++
                  le8 p.2.temperatureBits ++ le8 p.2.humidityBits ++
                  [rssiByte p.2.rssi])
        ∧ (serializeSensorDataMap
              [("AA:BB:CC:DD:EE:FF", ⟨"AA:BB:CC:DD:EE:FF", "", "", 5, 7, -62⟩)]).length
            = 1 + 23 * [("AA:BB:CC:DD:EE:FF",
                (⟨"AA:BB:CC:DD:EE:FF", "", "", 5, 7, -62⟩ : SensorData))].length) :=
  ⟨by decide,
    C2_serialize_layout
      [("AA:BB:CC:DD:EE:FF", ⟨"AA:BB:CC:DD:EE:FF", "", "", 5, 7, -62⟩)]
      (by decide)⟩

/-- C10: the serializer is total for maps of any size: with more than
255 entries the blob still contains every entry and has length
`1 + 23 * n`, but the count byte holds `n mod 256`, which no longer
equals the number of serialized entries. -/
theorem C10_count_byte_wraps (entries : List (String × SensorData))
    (h : 255 < entries.length) :
    serializeSensorDataMap entries
      = (entries.length % 256) :: entries.flatMap (fun p => entryBytes p.2)
    ∧ (serializeSensorDataMap entries).length = 1 + 23 * entries.length
    ∧ (serializeSensorDataMap entries).head? = some (entries.length % 256)
    ∧ entries.length % 256 ≠ entries.length := by
  refine ⟨serialize_eq_flatMap entries, ?_, ?_, ?_⟩
  · rw [serialize_eq_flatMap]
    simp only [List.length_cons, entriesBytes_length]
    omega
  · rw [serialize_eq_flatMap]
    rfl
  · have : entries.length % 256 < 256 := Nat.mod_lt _ (by norm_num)
    omega

/-- A window map with 256 distinct single-character addresses. -/
def bigWindow : List (String × SensorData) :=
  (List.range 256).map (fun i => (String.mk [Char.ofNat i], SensorData.dummy))

/-- C10 witness: the serializer applied to the 256-entry map. -/
theorem C10_count_byte_wraps_witness :
    255 < bigWindow.length
    ∧ (serializeSensorDataMap bigWindow
          = (bigWindow.length % 256) :: bigWindow.flatMap (fun p => entryBytes p.2)
        ∧ (serializeSensorDataMap bigWindow).length = 1 + 23 * bigWindow.length
        ∧ (serializeSensorDataMap bigWindow).head? = some (bigWindow.length % 256)
        ∧ bigWindow.length % 256 ≠ bigWindow.length) :=
  ⟨by simp [bigWindow], C10_count_byte_wraps bigWindow (by simp [bigWindow])⟩

/-- Helper: a list with no entry for key `k` filters to nothing at
`k`. -/
theorem filter_key_of_not_any (m : List (String × SensorData)) (k : String)
    (hnone : m.any (fun p => p.1 = k) = false) :
    m.filter (fun p => p.1 = k) = [] := by
  induction m with
  | nil => rfl
  | cons p rest ih =>
    simp only [List.any_cons, Bool.or_eq_false_iff] at hnone
    simp only [List.filter_cons, hnone.1]
    exact ih hnone.2

/-- Helper: assigning key `k` in a unique-key list that contains it
leaves exactly the entry `(k, v)` at key `k`. -/
theorem filter_key_map_assign (m : List (String × SensorData)) (k : String)
    (v : SensorData) (h : keysNodup m)
    (hany : m.any (fun p => p.1 = k) = true) :
    ((m.map (fun p => if p.1 = k then (k, v) else p)).filter
        (fun p => p.1 = k))
      = [(k, v)] := by
  induction m with
  | nil => simp at hany
  | cons p rest ih =>
    rw [keysNodup, List.map_cons, List.nodup_cons] at h
    by_cases hp : p.1 = k
    · have hnone : rest.any (fun q => q.1 = k) = false := by
        rw [← Bool.not_eq_true, List.any_eq_true]
        rintro ⟨q, hq, hqk⟩
        exact h.1 (by
          rw [hp]
          simp only [decide_eq_true_eq] at hqk
          exact (List.mem_map.mpr ⟨q, hq, hqk⟩))
      have hrest : rest.map (fun q => if q.1 = k then (k, v) else q) = rest := by
        conv_rhs => rw [← List.map_id rest]
        apply List.map_congr_left
        intro q hq
        have hq1 : q.1 ≠ k := by
          intro hqk
          have hne := hnone
          rw [← Bool.not_eq_true, List.any_eq_true] at hne
          exact hne ⟨q, hq, by simp [hqk]⟩
        simp [hq1]
      simp only [List.map_cons, hp, if_pos rfl, hrest, List.filter_cons]
      simp [filter_key_of_not_any rest k hnone]
    · simp only [List.any_cons] at hany
      have hrest : rest.any (fun q => q.1 = k) = true := by
        rcases Bool.or_eq_true_iff.mp hany with h1 | h1
        · exact absurd (by simpa using h1) hp
        · exact h1
      simp only [List.map_cons, if_neg hp, List.filter_cons]
      simp only [decide_eq_true_eq]
      rw [if_neg (by simpa using hp)]
      exact ih h.2 hrest

/-- Helper: upserting preserves the unique-keys invariant of the window
map. -/
theorem mapUpsert_keysNodup (m : List (String × SensorData)) (k : String)
    (v : SensorData) (h : keysNodup m) : keysNodup (mapUpsert m k v) := by
  rw [mapUpsert]
  by_cases hany : m.any (fun p => p.1 = k) = true
  · rw [if_pos hany]
    have : (m.map (fun p => if p.1 = k then (k, v) else p)).map Prod.fst
        = m.map Prod.fst := by
      rw [List.map_map]
      apply List.map_congr_left
      intro p _
      by_cases hp : p.1 = k <;> simp [hp]
    rw [keysNodup, this]
    exact h
  · rw [if_neg hany]
    rw [keysNodup, List.map_append, List.nodup_append]
    have hnone : ∀ p ∈ m, p.1 ≠ k := by
      intro p hp hpk
      exact hany (List.any_eq_true.mpr ⟨p, hp, by simp [hpk]⟩)
    refine ⟨h, by simp, ?_⟩
    intro a ha hb
    simp only [List.map_cons, List.map_nil, List.mem_singleton] at hb
    rcases List.mem_map.mp ha with ⟨p, hp, hpa⟩
    exact hnone p hp (hpa.trans hb)

/-- Helper: upserting `(k, v)` into a unique-key window leaves exactly
the entry `(k, v)` at key `k`. -/
theorem mapUpsert_filter_self (m : List (String × SensorData)) (k : String)
    (v : SensorData) (h : keysNodup m) :
    (mapUpsert m k v).filter (fun p => p.1 = k) = [(k, v)] := by
  rw [mapUpsert]
  by_cases hany : m.any (fun p => p.1 = k) = true
  · rw [if_pos hany]
    exact filter_key_map_assign m k v h hany
  · rw [if_neg hany]
    rw [List.filter_append]
    rw [filter_key_of_not_any m k (by rw [← Bool.not_eq_true]; exact hany)]
    simp

/-- Helper: folding a same-address run of Readings into the window after
a first upsert keeps exactly one entry for that address: the last
Reading of the run. -/
theorem foldl_upsert_last (addr : String) :
    ∀ (rs : List SensorData) (w : List (String × SensorData))
      (r0 : SensorData), keysNodup w → r0.mac_address = addr →
      (∀ r ∈ rs, r.mac_address = addr) →
      ((rs.foldl (fun m r => mapUpsert m r.mac_address r)
          (mapUpsert w r0.mac_address r0)).filter (fun p => p.1 = addr))
        = [(addr, rs.getLastD r0)]
  | [], w, r0, hw, h0, _ => by
    simp only [List.foldl_nil, List.getLastD_nil]
    rw [h0]
    exact mapUpsert_filter_self w addr r0 hw
  | r :: tl, w, r0, hw, h0, hall => by
    have hr : r.mac_address = addr := hall r (by simp)
    have htl : ∀ x ∈ tl, x.mac_address = addr := fun x hx =>
      hall x (by simp [hx])
    simp only [List.foldl_cons, List.getLastD_cons]
    exact foldl_upsert_last addr tl (mapUpsert w r0.mac_address r0) r
      (mapUpsert_keysNodup w r0.mac_address r0 hw) hr htl

/-- C4: inserting a sequence of Readings that all carry the same device
address into any unique-key window state leaves exactly one entry for
that address — the last Reading inserted — so the flushed window holds
at most one Reading per address, with later Readings overwriting
earlier ones. -/
theorem C4_window_upsert (w : List (String × SensorData)) (addr : String)
    (rs : List SensorData) (hw : keysNodup w) (hne : rs ≠ [])
    (hall : ∀ r ∈ rs, r.mac_address = addr) :
    ((rs.foldl (fun m r => mapUpsert m r.mac_address r) w).filter
        (fun p => p.1 = addr))
      = [(addr, rs.getLastD SensorData.dummy)] := by
  cases rs with
  | nil => exact absurd rfl hne
  | cons r tl =>
    have hr : r.mac_address = addr := hall r (by simp)
    simp only [List.foldl_cons, List.getLastD_cons]
    exact foldl_upsert_last addr tl w r hw hr
      (fun x hx => hall x (by simp [hx]))

/-- First of two concrete Readings for the C4 witness. -/
def c4reading1 : SensorData := ⟨"AA", "", "", 1, 1, 0⟩

/-- Second of two concrete Readings for the C4 witness. -/
def c4reading2 : SensorData := ⟨"AA", "", "", 2, 2, 0⟩

/-- C4 witness: two Readings for address `"AA"` pushed into an empty
window leave one entry holding the second Reading. -/
theorem C4_window_upsert_witness :
    keysNodup [] ∧ ([c4reading1, c4reading2] : List SensorData) ≠ [] ∧
    (∀ r ∈ ([c4reading1, c4reading2] : List SensorData),
      r.mac_address = "AA") ∧
    (([c4reading1, c4reading2].foldl
        (fun m r => mapUpsert m r.mac_address r) []).filter
          (fun p => p.1 = "AA")
      = [("AA", [c4reading1, c4reading2].getLastD SensorData.dummy)]) :=
  ⟨by simp [keysNodup], by decide, by decide,
    C4_window_upsert [] "AA" [c4reading1, c4reading2]
      (by simp [keysNodup]) (by decide) (by decide)⟩

/-- C5: when `stopProcessing` runs with the thread joinable and the
database manager attached, a non-empty residual window produces exactly
one additional `insertAggregatedSensorData` call carrying the serialized
window — deadline or not — after which the window is cleared; an empty
residual window produces no additional call. -/
theorem C5_shutdown_flush (s : ProcState) (hj : s.joinable = true)
    (hs : s.hasSink = true) :
    (s.window ≠ [] →
      (stopProcessing s).sinkCalls
          = s.sinkCalls ++ [serializeSensorDataMap s.window]
        ∧ (stopProcessing s).window = [])
    ∧ (s.window = [] → (stopProcessing s).sinkCalls = s.sinkCalls) := by
  rw [stopProcessing, if_pos hj]
  constructor
  · intro hw
    rw [shutdownFlush]
    have : (s.window.isEmpty = false) := by
      cases hcase : s.window with
      | nil => exact absurd hcase hw
      | cons a t => rfl
    simp [this, hs]
  · intro hw
    rw [shutdownFlush]
    simp [hw]

/-- C5 witness: stopping with one Reading left in the window. -/
theorem C5_shutdown_flush_witness :
    (⟨true, true, [], [("AA", SensorData.dummy)], true, []⟩ : ProcState).joinable = true ∧
    (⟨true, true, [], [("AA", SensorData.dummy)], true, []⟩ : ProcState).hasSink = true ∧
    ((((⟨true, true, [], [("AA", SensorData.dummy)], true, []⟩ : ProcState).window ≠ [] →
        (stopProcessing ⟨true, true, [], [("AA", SensorData.dummy)], true, []⟩).sinkCalls
            = (⟨true, true, [], [("AA", SensorData.dummy)], true, []⟩ : ProcState).sinkCalls
              ++ [serializeSensorDataMap
                  (⟨true, true, [], [("AA", SensorData.dummy)], true, []⟩ : ProcState).window]
          ∧ (stopProcessing ⟨true, true, [], [("AA", SensorData.dummy)], true, []⟩).window = [])
      ∧ ((⟨true, true, [], [("AA", SensorData.dummy)], true, []⟩ : ProcState).window = [] →
          (stopProcessing ⟨true, true, [], [("AA", SensorData.dummy)], true, []⟩).sinkCalls
            = (⟨true, true, [], [("AA", SensorData.dummy)], true, []⟩ : ProcState).sinkCalls))) :=
  ⟨rfl, rfl,
    C5_shutdown_flush ⟨true, true, [], [("AA", SensorData.dummy)], true, []⟩ rfl rfl⟩

/-- Helper: one unfolding of the TP357 TLV loop. -/
theorem parseTp357Go_succ (data : List Nat) (len fuel offset : Nat)
    (st : Tp357Out) :
    parseTp357Go data len (fuel + 1) offset st
      = if offset < len then
          if byteAt data offset = 0 then st
          else
            parseTp357Go data len fuel (offset + byteAt data offset + 1)
              (if byteAt data (offset + 1) = AD_TYPE_COMPLETE_LOCAL_NAME ∨
                  byteAt data (offset + 1) = AD_TYPE_SHORT_LOCAL_NAME then
                { st with device_name :=
                    readBytes data (offset + 2) (byteAt data offset - 1) }
              else if byteAt data (offset + 1)
                  = AD_TYPE_MANUFACTURER_SPECIFIC_DATA then
                if 4 ≤ byteAt data offset - 1 then
                  { st with
                    temperature :=
                      (toInt16 (byteAt data (offset + 3) +
                        256 * byteAt data (offset + 4)) : ℚ) / 10,
                    humidity := (byteAt data (offset + 5) : ℚ) }
                else st
              else st)
        else st := rfl

/-- C3: a manufacturer-specific-data TLV record with at least 4 payload
bytes sets the temperature to the little-endian signed 16-bit integer
formed from payload bytes 1 and 2 divided by 10, and the humidity to
payload byte 3 read directly; with fewer than 4 payload bytes both stay
at the invalid sentinel `-999` rather than zero. -/
theorem C3_manufacturer_record (ps : List Nat) (hlen : ps.length ≤ 254)
    (hb : ∀ b ∈ ps, b < 256) :
    parse_advertising_data_tp357
        ((ps.length + 1) :: AD_TYPE_MANUFACTURER_SPECIFIC_DATA :: ps)
        (ps.length + 2)
      = if 4 ≤ ps.length then
          ⟨[], (toInt16 (ps.getD 1 0 + 256 * ps.getD 2 0) : ℚ) / 10,
            (ps.getD 3 0 : ℚ)⟩
        else ⟨[], -999, -999⟩ := by
  have hmod : (ps.length + 1) % 256 = ps.length + 1 :=
    Nat.mod_eq_of_lt (by omega)
  have hlt : ∀ i, i < ps.length → ps.getD i 0 < 256 := by
    intro i hi
    rw [List.getD_eq_getElem ps 0 hi]
    exact hb _ (List.getElem_mem hi)
  have e0 : byteAt ((ps.length + 1) ::
      AD_TYPE_MANUFACTURER_SPECIFIC_DATA :: ps) 0 = ps.length + 1 := hmod
  have e1 : byteAt ((ps.length + 1) ::
      AD_TYPE_MANUFACTURER_SPECIFIC_DATA :: ps) (0 + 1) = 255 := rfl
  have e3 : byteAt ((ps.length + 1) ::
      AD_TYPE_MANUFACTURER_SPECIFIC_DATA :: ps) (0 + 3) = ps.getD 1 0 % 256 := rfl
  have e4 : byteAt ((ps.length + 1) ::
      AD_TYPE_MANUFACTURER_SPECIFIC_DATA :: ps) (0 + 4) = ps.getD 2 0 % 256 := rfl
  have e5 : byteAt ((ps.length + 1) ::
      AD_TYPE_MANUFACTURER_SPECIFIC_DATA :: ps) (0 + 5) = ps.getD 3 0 % 256 := rfl
  rw [parse_advertising_data_tp357]
  rw [show ps.length + 2 = ps.length + 1 + 1 from rfl]
  rw [parseTp357Go_succ]
  rw [if_pos (show (0 : Nat) < ps.length + 1 + 1 by omega)]
  rw [e0, e1, e3, e4, e5]
  rw [if_neg (show ¬(ps.length + 1 = 0) by omega)]
  rw [if_neg (show ¬((255 : Nat) = AD_TYPE_COMPLETE_LOCAL_NAME ∨
    (255 : Nat) = AD_TYPE_SHORT_LOCAL_NAME) by decide)]
  rw [if_pos (show (255 : Nat) = AD_TYPE_MANUFACTURER_SPECIFIC_DATA by decide)]
  simp only [Nat.add_sub_cancel]
  by_cases hc : 4 ≤ ps.length
  · rw [if_pos hc, if_pos hc]
    rw [Nat.mod_eq_of_lt (hlt 1 (by omega)),
      Nat.mod_eq_of_lt (hlt 2 (by omega)),
      Nat.mod_eq_of_lt (hlt 3 (by omega))]
    rw [parseTp357Go_succ]
    rw [if_neg (show ¬(0 + (ps.length + 1) + 1 < ps.length + 1 + 1) by omega)]
  · rw [if_neg hc, if_neg hc]
    rw [parseTp357Go_succ]
    rw [if_neg (show ¬(0 + (ps.length + 1) + 1 < ps.length + 1 + 1) by omega)]

/-- C3 witness: a 4-byte manufacturer payload `[0x01, 234, 0, 55]`
decodes to temperature `23.4` and humidity `55`. -/
theorem C3_manufacturer_record_witness :
    ([1, 234, 0, 55] : List Nat).length ≤ 254 ∧
    (∀ b ∈ ([1, 234, 0, 55] : List Nat), b < 256) ∧
    parse_advertising_data_tp357
        ((([1, 234, 0, 55] : List Nat).length + 1) ::
          AD_TYPE_MANUFACTURER_SPECIFIC_DATA :: [1, 234, 0, 55])
        (([1, 234, 0, 55] : List Nat).length + 2)
      = if 4 ≤ ([1, 234, 0, 55] : List Nat).length then
          ⟨[], (toInt16 (([1, 234, 0, 55] : List Nat).getD 1 0 +
              256 * ([1, 234, 0, 55] : List Nat).getD 2 0) : ℚ) / 10,
            (([1, 234, 0, 55] : List Nat).getD 3 0 : ℚ)⟩
        else ⟨[], -999, -999⟩ :=
  ⟨by decide, by decide,
    C3_manufacturer_record [1, 234, 0, 55] (by decide) (by decide)⟩

end BLEGateway
